import Mathlib

/-!
Shallow embedding of the animation state engine of the ai-avatar repository
(src/src/components/AIAvatar.tsx and src/src/App.tsx).

The embedding translates, from the source:
  - the character-to-viseme lookup table VISEME_MAP and the resolution
    performed in processChunks (lowercase the first character of a chunk,
    look it up, default to the rest state);
  - the viseme animation effect (lines 170-226): the speech animator that
    emits one viseme per 100ms tick from the chunk buffer;
  - the isSpeaking reset effect (lines 161-167) and the chunk-index reset
    effect (lines 229-236);
  - the blink scheduling arithmetic of scheduleNextBlink (lines 83-102);
  - the emotion-driven eye geometry: getEyePath, getEyeShinePosition and
    the eyebrow rendering conditions in the returned SVG;
  - the producer in App.tsx: streamNextToken with its 20-chunk sliding
    window and its rescheduling policy.
-/

/-- Viseme enumeration, exactly the nine values of the source type
Viseme = A | B | C | D | E | F | G | H | X. -/
inductive Viseme where
  | A | B | C | D | E | F | G | H | X
deriving DecidableEq, Repr

/-- Eye emotion enumeration, exactly the five values of the source type
EyeEmotion. -/
inductive EyeEmotion where
  | neutral | happy | sad | angry | surprised
deriving DecidableEq, BEq, Repr

/-- The fixed lookup table VISEME_MAP of AIAvatar.tsx, lines 10-42.
Unmapped characters give none; the caller defaults to the rest state. -/
def VISEME_MAP (c : Char) : Option Viseme :=
  match c with
  | 'a' => some Viseme.A
  | 'b' => some Viseme.B
  | 'c' => some Viseme.C
  | 'd' => some Viseme.D
  | 'e' => some Viseme.E
  | 'f' => some Viseme.F
  | 'g' => some Viseme.G
  | 'h' => some Viseme.H
  | 'i' => some Viseme.C
  | 'j' => some Viseme.H
  | 'k' => some Viseme.G
  | 'l' => some Viseme.C
  | 'm' => some Viseme.B
  | 'n' => some Viseme.C
  | 'o' => some Viseme.H
  | 'p' => some Viseme.B
  | 'q' => some Viseme.G
  | 'r' => some Viseme.C
  | 's' => some Viseme.C
  | 't' => some Viseme.C
  | 'u' => some Viseme.H
  | 'v' => some Viseme.F
  | 'w' => some Viseme.H
  | 'x' => some Viseme.C
  | 'y' => some Viseme.C
  | 'z' => some Viseme.C
  | ' ' => some Viseme.X
  | '.' => some Viseme.X
  | ',' => some Viseme.X
  | '?' => some Viseme.D
  | '!' => some Viseme.D
  | _ => none

/-- Character resolution as performed in processChunks, lines 197-199:
the character is lowercased, looked up in VISEME_MAP, and an unmapped
character defaults to the rest state X (the source expression
VISEME_MAP[firstChar] || 'X'; every mapped value is a nonempty string,
hence truthy, so the default fires exactly on unmapped characters). -/
def resolveChar (c : Char) : Viseme :=
  (VISEME_MAP c.toLower).getD Viseme.X

/-- The 31 entries of VISEME_MAP written out as a list of pairs, used to
state the table claims exhaustively. -/
def tableEntries : List (Char × Viseme) :=
  [ ('a', Viseme.A), ('b', Viseme.B), ('c', Viseme.C), ('d', Viseme.D),
    ('e', Viseme.E), ('f', Viseme.F), ('g', Viseme.G), ('h', Viseme.H),
    ('i', Viseme.C), ('j', Viseme.H), ('k', Viseme.G), ('l', Viseme.C),
    ('m', Viseme.B), ('n', Viseme.C), ('o', Viseme.H), ('p', Viseme.B),
    ('q', Viseme.G), ('r', Viseme.C), ('s', Viseme.C), ('t', Viseme.C),
    ('u', Viseme.H), ('v', Viseme.F), ('w', Viseme.H), ('x', Viseme.C),
    ('y', Viseme.C), ('z', Viseme.C), (' ', Viseme.X), ('.', Viseme.X),
    (',', Viseme.X), ('?', Viseme.D), ('!', Viseme.D) ]

/-- The 26 lowercase letters. -/
def lowercaseLetters : List Char :=
  [ 'a', 'b', 'c', 'd', 'e', 'f', 'g', 'h', 'i', 'j', 'k', 'l', 'm',
    'n', 'o', 'p', 'q', 'r', 's', 't', 'u', 'v', 'w', 'x', 'y', 'z' ]

/-- C1: the viseme resolver is a total function (by construction it always
returns a Viseme, never an error): every one of the 26 lowercase letters
and the five marks returns its fixed table entry, in particular 'b', 'm',
'p' return B, 'f', 'v' return F, 'k', 'q', 'g' return G, '?' and '!'
return D, and space, '.', ',' return X; every character whose lowercase
form is not a key of the table, digits and unmapped punctuation included,
resolves to the rest state X. -/
theorem C1_resolver_total_table :
    (∀ p ∈ tableEntries, VISEME_MAP p.1 = some p.2 ∧ resolveChar p.1 = p.2) ∧
    (resolveChar 'b' = Viseme.B ∧ resolveChar 'm' = Viseme.B ∧ resolveChar 'p' = Viseme.B) ∧
    (resolveChar 'f' = Viseme.F ∧ resolveChar 'v' = Viseme.F) ∧
    (resolveChar 'k' = Viseme.G ∧ resolveChar 'q' = Viseme.G ∧ resolveChar 'g' = Viseme.G) ∧
    (resolveChar '?' = Viseme.D ∧ resolveChar '!' = Viseme.D) ∧
    (resolveChar ' ' = Viseme.X ∧ resolveChar '.' = Viseme.X ∧ resolveChar ',' = Viseme.X) ∧
    (∀ c : Char, VISEME_MAP c.toLower = none → resolveChar c = Viseme.X) := by
  refine ⟨by decide, by decide, by decide, by decide, by decide, by decide, ?_⟩
  intro c h
  simp [resolveChar, h]

/-- Witness for C1 at concrete inputs: the table entry for 'b' and the
digit '3', whose lowercase form is unmapped, hence resolves to rest. -/
theorem C1_resolver_total_table_witness :
    resolveChar 'b' = Viseme.B ∧ resolveChar '3' = Viseme.X := by
  exact ⟨(C1_resolver_total_table.1 ('b', Viseme.B) (by decide)).2,
         C1_resolver_total_table.2.2.2.2.2.2 '3' (by decide)⟩

/-- C6: case invariance of the resolver over the 26 letters. Because
resolveChar consults only the lowercase form of its argument, resolving
the uppercase form of any letter yields the same MouthState as resolving
the lowercase form. -/
theorem C6_case_invariance :
    ∀ c ∈ lowercaseLetters, resolveChar c.toUpper = resolveChar c := by
  decide

/-- Witness for C6 at the concrete letter 'a'. -/
theorem C6_case_invariance_witness :
    resolveChar 'A' = resolveChar 'a' := by
  exact C6_case_invariance 'a' (by decide)

/-!
Speech animator. The component state relevant to the animator is the
chunk index (read cursor), the current viseme, and whether the 100ms
viseme timeout is pending. The inputs textChunks and isSpeaking are
props, passed explicitly to every transition.
-/

/-- Component state of the speech animator: chunkIndex and currentViseme
from useState, plus whether visemeTimerRef holds a pending timeout. -/
structure AvatarState where
  chunkIndex : Nat
  currentViseme : Viseme
  timerActive : Bool
deriving DecidableEq, Repr

/-- Emission step of processChunks, lines 192-202: read the chunk at the
cursor; if it exists and is nonempty, resolve its first (lowercased)
character; an empty or absent chunk leaves the current viseme unchanged. -/
def emitViseme (chunks : List String) (i : Nat) (v : Viseme) : Viseme :=
  match chunks.get? i with
  | some ch =>
    match ch.toList with
    | c :: _ => resolveChar c
    | [] => v
  | none => v

/-- Body of processChunks, lines 190-218, run on a state whose timer was
already cleared: if the cursor has not reached the buffer end, publish
the resolved viseme and schedule the 100ms timeout; otherwise, nothing. -/
def processChunks (chunks : List String) (s : AvatarState) : AvatarState :=
  if s.chunkIndex < chunks.length then
    { s with currentViseme := emitViseme chunks s.chunkIndex s.currentViseme,
             timerActive := true }
  else s

/-- The viseme animation effect, lines 170-226: clear any pending timer;
when not speaking or the buffer is empty, force the rest viseme and stop;
otherwise run processChunks. -/
def visemeEffect (chunks : List String) (speaking : Bool) (s : AvatarState) : AvatarState :=
  if !speaking || chunks.isEmpty then
    { s with currentViseme := Viseme.X, timerActive := false }
  else
    processChunks chunks { s with timerActive := false }

/-- Firing of the 100ms viseme timeout, lines 206-216. When the cursor is
not at the last chunk, the cursor advances, which re-triggers the viseme
effect (chunkIndex is one of its dependencies). At the last chunk, the
mouth returns to rest and no further timeout is scheduled; the state
change does not re-trigger the effect because currentViseme is not a
dependency. A fired or absent timer leaves timerActive false. -/
def timerFire (chunks : List String) (s : AvatarState) : AvatarState :=
  if s.timerActive then
    if s.chunkIndex < chunks.length - 1 then
      visemeEffect chunks true { s with chunkIndex := s.chunkIndex + 1, timerActive := false }
    else
      { s with currentViseme := Viseme.X, timerActive := false }
  else s

/-- The isSpeaking effect, lines 161-167: when the flag is false the
mouth returns to rest, immediately on the flag change. -/
def speakingEffect (speaking : Bool) (s : AvatarState) : AvatarState :=
  if !speaking then { s with currentViseme := Viseme.X } else s

/-- The chunk-index reset effect, lines 229-236: the cursor is zeroed
exactly when the chunk buffer is empty or the speaking flag is false. Its
dependencies are textChunks and isSpeaking only, so it does not run when
a tick merely advances the cursor. -/
def indexResetEffect (chunks : List String) (speaking : Bool) (s : AvatarState) : AvatarState :=
  if chunks.isEmpty || !speaking then { s with chunkIndex := 0 } else s

/-- Session start: the component renders with the given chunks, the
speaking flag already true and a fresh state (cursor 0, rest viseme, no
timer); the viseme effect runs. -/
def startSession (chunks : List String) : AvatarState :=
  visemeEffect chunks true { chunkIndex := 0, currentViseme := Viseme.X, timerActive := false }

/-- Effect pass after the textChunks prop changes while speaking stays
true: the cleanup of the viseme effect clears the pending timeout, then
the viseme effect and the chunk-index reset effect re-run in declaration
order (the isSpeaking effect does not re-run, its dependency did not
change). -/
def chunksChanged (chunks : List String) (s : AvatarState) : AvatarState :=
  indexResetEffect chunks true (visemeEffect chunks true { s with timerActive := false })

/-- Effect pass after the isSpeaking prop changes: all three effects with
isSpeaking among their dependencies run in declaration order. -/
def speakingChanged (chunks : List String) (speaking : Bool) (s : AvatarState) : AvatarState :=
  indexResetEffect chunks speaking (visemeEffect chunks speaking (speakingEffect speaking s))

/-- Viseme sampled at the n-th 100ms tick boundary of a session on a
fixed buffer, with speaking true throughout: the state after the initial
effect pass followed by n timeout firings. -/
def visemeAt (chunks : List String) (n : Nat) : Viseme :=
  ((timerFire chunks)^[n] (startSession chunks)).currentViseme

/-- The five-token buffer of the hello scenario. -/
def helloChunks : List String := ["h", "e", "l", "l", "o"]

/-- C2: with speaking true and exactly the tokens of helloChunks buffered
before the session starts, the visemes sampled at tick boundaries 0-4
(0ms to 400ms) are the resolved visemes of h, e, l, l, o, namely H, E,
C, C, H, and from tick 5 (500ms) onward the mouth holds at rest X while
no further tokens arrive. -/
theorem C2_hello_trace :
    visemeAt helloChunks 0 = Viseme.H ∧
    visemeAt helloChunks 1 = Viseme.E ∧
    visemeAt helloChunks 2 = Viseme.C ∧
    visemeAt helloChunks 3 = Viseme.C ∧
    visemeAt helloChunks 4 = Viseme.H ∧
    ∀ n : Nat, visemeAt helloChunks (n + 5) = Viseme.X := by
  refine ⟨by decide, by decide, by decide, by decide, by decide, ?_⟩
  intro n
  have h5 : (timerFire helloChunks)^[5] (startSession helloChunks)
      = { chunkIndex := 4, currentViseme := Viseme.X, timerActive := false } := by decide
  have hfix : timerFire helloChunks
      { chunkIndex := 4, currentViseme := Viseme.X, timerActive := false }
      = { chunkIndex := 4, currentViseme := Viseme.X, timerActive := false } := by decide
  unfold visemeAt
  rw [Function.iterate_add_apply, h5, Function.iterate_fixed hfix]

/-- C3 counterexample: the claim asserts that appending a token after the
buffer is exhausted produces no duplicate emission of an already-consumed
token. On the code this fails: start a session on the single token "h"
(the mouth shows H), let the tick consume it (the mouth returns to rest
X, the end-of-buffer branch), then append "a". The effect pass triggered
by the append re-reads the chunk at the cursor, which still points at the
consumed "h", and publishes H again, a state that is neither rest nor the
viseme A of the new token. -/
theorem C3_counterexample :
    (timerFire ["h"] (startSession ["h"])).currentViseme = Viseme.X ∧
    (chunksChanged ["h", "a"] (timerFire ["h"] (startSession ["h"]))).currentViseme
      = resolveChar 'h' ∧
    resolveChar 'h' = Viseme.H ∧
    resolveChar 'h' ≠ Viseme.X ∧
    resolveChar 'h' ≠ resolveChar 'a' := by
  decide

/-- C3 amended: if the cursor has consumed every buffered token (it rests
on the last chunk, the end-of-buffer timeout has fired and no timer is
pending) while speaking stays true, then appending one new nonempty token
resumes emission with no restart of the sequence: the cursor is not
reset, the token at the cursor (the last already-consumed one) is
re-displayed at the moment of the append, and the new token itself is
emitted exactly once, at the next tick. -/
theorem C3_amended_resume (chunks : List String) (t : String) (w : Viseme)
    (s : AvatarState)
    (hidx : s.chunkIndex + 1 = chunks.length)
    (htimer : s.timerActive = false)
    (ht : (t.toList.head?.map resolveChar) = some w) :
    (chunksChanged (chunks ++ [t]) s).chunkIndex = s.chunkIndex ∧
    (chunksChanged (chunks ++ [t]) s).currentViseme
      = emitViseme chunks s.chunkIndex s.currentViseme ∧
    (timerFire (chunks ++ [t]) (chunksChanged (chunks ++ [t]) s)).chunkIndex
      = s.chunkIndex + 1 ∧
    (timerFire (chunks ++ [t]) (chunksChanged (chunks ++ [t]) s)).currentViseme = w := by
  have hne : (chunks ++ [t]).isEmpty = false := by
    simp
  have hlt0 : s.chunkIndex < chunks.length := by
    omega
  have hget : (chunks ++ [t])[s.chunkIndex]? = chunks[s.chunkIndex]? :=
    List.getElem?_append_left hlt0
  have hget2 : (chunks ++ [t])[s.chunkIndex + 1]? = some t := by
    rw [List.getElem?_append_right (by omega)]
    have hzero : s.chunkIndex + 1 - chunks.length = 0 := by omega
    rw [hzero]
    rfl
  obtain ⟨c, rest, hcons⟩ : ∃ c rest, t.toList = c :: rest := by
    cases hc : t.toList with
    | nil => rw [hc] at ht; simp at ht
    | cons c rest => exact ⟨c, rest, rfl⟩
  have hw : resolveChar c = w := by
    rw [hcons] at ht
    simpa using ht
  have hdata : t.data = c :: rest := hcons
  have h1 : chunksChanged (chunks ++ [t]) s
      = { chunkIndex := s.chunkIndex,
          currentViseme := emitViseme chunks s.chunkIndex s.currentViseme,
          timerActive := true } := by
    simp [chunksChanged, visemeEffect, processChunks, indexResetEffect,
      emitViseme, hne, hget, Nat.lt_succ_of_lt hlt0]
  have h2 : timerFire (chunks ++ [t])
      { chunkIndex := s.chunkIndex,
        currentViseme := emitViseme chunks s.chunkIndex s.currentViseme,
        timerActive := true }
      = { chunkIndex := s.chunkIndex + 1, currentViseme := w, timerActive := true } := by
    simp [timerFire, visemeEffect, processChunks, emitViseme, hne, hlt0,
      hget2, hdata, hw]
  refine ⟨?_, ?_, ?_, ?_⟩
  · rw [h1]
  · rw [h1]
  · rw [h1, h2]
  · rw [h1, h2]

/-- Witness for C3 amended: buffer ["h", "i"] fully consumed with the
cursor at index 1 and no pending timer, then "o" is appended; the cursor
stays at 1, the consumed "i" is re-displayed, and the next tick advances
the cursor to 2 and emits the viseme H of "o". -/
theorem C3_amended_resume_witness :
    (chunksChanged (["h", "i"] ++ ["o"])
      { chunkIndex := 1, currentViseme := Viseme.X, timerActive := false }).chunkIndex = 1 ∧
    (chunksChanged (["h", "i"] ++ ["o"])
      { chunkIndex := 1, currentViseme := Viseme.X, timerActive := false }).currentViseme
      = emitViseme ["h", "i"] 1 Viseme.X ∧
    (timerFire (["h", "i"] ++ ["o"]) (chunksChanged (["h", "i"] ++ ["o"])
      { chunkIndex := 1, currentViseme := Viseme.X, timerActive := false })).chunkIndex = 2 ∧
    (timerFire (["h", "i"] ++ ["o"]) (chunksChanged (["h", "i"] ++ ["o"])
      { chunkIndex := 1, currentViseme := Viseme.X, timerActive := false })).currentViseme
      = Viseme.H := by
  exact C3_amended_resume ["h", "i"] "o" Viseme.H
    { chunkIndex := 1, currentViseme := Viseme.X, timerActive := false }
    (by decide) (by decide) (by decide)


/-- C4: cursor reset policy. Ticks never rewind the read cursor (a
timeout firing either keeps it or advances it by one, in particular the
tick that consumes the last available token leaves it unchanged), the
viseme effect never touches it, and while the speaking flag is true and
the buffer nonempty the chunk-index reset effect is the identity; the
cursor is zeroed exactly by the reset effect when the engine is idle
(speaking false) or the buffer has been cleared (explicit reset), so
every entry into Speaking from a fully idle state starts at cursor 0. -/
theorem C4_cursor_reset_policy :
    (∀ (chunks : List String) (s : AvatarState),
      s.chunkIndex ≤ (timerFire chunks s).chunkIndex) ∧
    (∀ (chunks : List String) (speaking : Bool) (s : AvatarState),
      (visemeEffect chunks speaking s).chunkIndex = s.chunkIndex) ∧
    (∀ (chunks : List String) (s : AvatarState),
      chunks ≠ [] → indexResetEffect chunks true s = s) ∧
    (∀ (chunks : List String) (s : AvatarState),
      (indexResetEffect chunks false s).chunkIndex = 0) := by
  refine ⟨?_, ?_, ?_, ?_⟩
  · intro chunks s
    unfold timerFire visemeEffect processChunks
    split
    · split
      · split
        · simp
        · split <;> simp
      · simp
    · exact le_refl _
  · intro chunks speaking s
    unfold visemeEffect processChunks
    split
    · rfl
    · split <;> rfl
  · intro chunks s h
    unfold indexResetEffect
    have : chunks.isEmpty = false := by
      simpa [List.isEmpty_iff] using h
    simp [this]
  · intro chunks s
    unfold indexResetEffect
    simp

/-- Witness for C4: with the nonempty buffer ["h"] and speaking true, the
reset effect leaves a cursor of 1 untouched, while with speaking false it
zeroes it; a timeout firing at the exhausted end keeps the cursor. -/
theorem C4_cursor_reset_policy_witness :
    indexResetEffect ["h"] true
      { chunkIndex := 1, currentViseme := Viseme.X, timerActive := false }
      = { chunkIndex := 1, currentViseme := Viseme.X, timerActive := false } ∧
    (indexResetEffect ["h"] false
      { chunkIndex := 1, currentViseme := Viseme.X, timerActive := false }).chunkIndex = 0 ∧
    ({ chunkIndex := 0, currentViseme := Viseme.H, timerActive := true } : AvatarState).chunkIndex
      ≤ (timerFire ["h"]
      { chunkIndex := 0, currentViseme := Viseme.H, timerActive := true }).chunkIndex := by
  exact ⟨C4_cursor_reset_policy.2.2.1 ["h"] _ (by decide),
         C4_cursor_reset_policy.2.2.2 ["h"] _,
         C4_cursor_reset_policy.1 ["h"] _⟩

/-- C5: whenever the speaking flag is false the current MouthState is the
rest state X, regardless of the buffer contents: the isSpeaking effect
alone already forces X on the flag change itself (no tick involved), the
full effect pass on the flag change yields the fixed state with cursor 0,
rest viseme and no pending timer, running it twice gives the same state
(idempotent), and a subsequent timeout firing changes nothing. -/
theorem C5_not_speaking_rest :
    ∀ (chunks : List String) (s : AvatarState),
      (speakingEffect false s).currentViseme = Viseme.X ∧
      speakingChanged chunks false s
        = { chunkIndex := 0, currentViseme := Viseme.X, timerActive := false } ∧
      speakingChanged chunks false (speakingChanged chunks false s)
        = speakingChanged chunks false s ∧
      timerFire chunks (speakingChanged chunks false s)
        = speakingChanged chunks false s := by
  intro chunks s
  have h : speakingChanged chunks false s
      = { chunkIndex := 0, currentViseme := Viseme.X, timerActive := false } := by
    unfold speakingChanged speakingEffect visemeEffect indexResetEffect
    simp
  refine ⟨rfl, h, ?_, ?_⟩
  · rw [h]
    unfold speakingChanged speakingEffect visemeEffect indexResetEffect
    simp
  · rw [h]
    rfl

/-!
Blink cycle (scheduleNextBlink, lines 83-102): clear any pending blink
timer, draw a random delay of r * 3000 + 2000 ms, after that delay set
BlinkState true, 150 ms later set it false and reschedule.
-/

/-- The randomized inter-blink delay of line 87, with r the value drawn
from the random source in the unit interval. -/
def blinkDelay (r : ℚ) : ℚ := r * 3000 + 2000

/-- The fixed blink on-phase duration of line 93, in ms. -/
def blinkDuration : ℚ := 150

/-- Time at which the n-th blink turns on, given the sequence rs of
random draws: each cycle sleeps its delay, stays on for the blink
duration, and reschedules at the moment BlinkState returns to false. -/
def blinkOnTime (rs : Nat → ℚ) : Nat → ℚ
  | 0 => blinkDelay (rs 0)
  | n + 1 => blinkOnTime rs n + blinkDuration + blinkDelay (rs (n + 1))

/-- Time at which the n-th blink turns off. -/
def blinkOffTime (rs : Nat → ℚ) (n : Nat) : ℚ := blinkOnTime rs n + blinkDuration

/-- Timer bookkeeping of scheduleNextBlink, line 85 and 88: the pending
blink timer handle is cleared before the new timeout is stored, so the
resulting pending timer is the new delay alone, whatever was pending. -/
def scheduleNextBlink (pending : Option ℚ) (d : ℚ) : Option ℚ :=
  match pending with
  | some _ => some d
  | none => some d

/-- C7: for every draw r of the random source in the unit interval the
scheduled inter-blink delay equals r * 3000 + 2000, hence lies in the
interval from 2000 ms inclusive to 5000 ms exclusive; the on-phase of
every blink cycle lasts exactly 150 ms before BlinkState returns to
false, at which moment the next cycle is scheduled; and rescheduling
first cancels whatever blink timer was pending, the new pending timer
being the fresh delay alone. -/
theorem C7_blink_cycle :
    (∀ r : ℚ, 0 ≤ r → r < 1 →
      blinkDelay r = r * 3000 + 2000 ∧ 2000 ≤ blinkDelay r ∧ blinkDelay r < 5000) ∧
    (∀ (rs : Nat → ℚ) (n : Nat),
      blinkOffTime rs n - blinkOnTime rs n = 150 ∧
      blinkOnTime rs (n + 1) = blinkOffTime rs n + blinkDelay (rs (n + 1))) ∧
    (∀ (p₁ p₂ : Option ℚ) (d : ℚ), scheduleNextBlink p₁ d = scheduleNextBlink p₂ d ∧
      scheduleNextBlink p₁ d = some d) := by
  refine ⟨?_, ?_, ?_⟩
  · intro r h0 h1
    refine ⟨rfl, ?_, ?_⟩
    · unfold blinkDelay
      nlinarith
    · unfold blinkDelay
      nlinarith
  · intro rs n
    constructor
    · unfold blinkOffTime blinkDuration
      ring
    · unfold blinkOnTime blinkOffTime
      ring
  · intro p₁ p₂ d
    cases p₁ <;> cases p₂ <;> exact ⟨rfl, rfl⟩

/-- Witness for C7 at the concrete draw one half: the delay is 3500 ms,
inside the documented interval. -/
theorem C7_blink_cycle_witness :
    blinkDelay (1 / 2) = (1 / 2) * 3000 + 2000 ∧
    2000 ≤ blinkDelay (1 / 2) ∧ blinkDelay (1 / 2) < 5000 := by
  exact C7_blink_cycle.1 (1 / 2) (by norm_num) (by norm_num)

/-!
Emotion-driven eye geometry: the SVG constants of lines 239-245, the eye
outline getEyePath, the highlight position getEyeShinePosition, and the
eyebrow rendering conditions of the returned SVG (lines 438-476). SVG
path strings are embedded as lists of path commands, one constructor per
SVG path operator, with the same arguments in the same order.
-/

/-- SVG constant eyeOffsetX of line 240. -/
def eyeOffsetX : ℚ := 20

/-- SVG constant eyeOffsetY of line 241. -/
def eyeOffsetY : ℚ := -8

/-- SVG constant eyeWidth of line 243. -/
def eyeWidth : ℚ := 18

/-- SVG constant eyeHeight of line 244. -/
def eyeHeight : ℚ := 24

/-- One SVG path operator with its numeric arguments: M, L, H, Q, the
relative m, the relative arc a (radii, rotation, large-arc flag, sweep
flag, endpoint), and Z. -/
inductive PathCmd where
  | move (x y : ℚ)
  | lineTo (x y : ℚ)
  | hline (x : ℚ)
  | quad (x1 y1 x y : ℚ)
  | moveRel (dx dy : ℚ)
  | arcRel (rx ry rot : ℚ) (largeArc sweep : Bool) (dx dy : ℚ)
  | close
deriving DecidableEq, Repr

/-- Eye outline dimensions of getEyePath, lines 295-296: neutral and
surprised share the 1.25 times larger size class, the other emotions use
the base size. -/
def eyeDims (e : EyeEmotion) : ℚ × ℚ :=
  if e = EyeEmotion.neutral ∨ e = EyeEmotion.surprised then
    (eyeWidth * 1.25, eyeHeight * 1.25)
  else (eyeWidth, eyeHeight)

/-- The eye outline getEyePath of lines 292-331, translated command for
command from the SVG template strings. -/
def getEyePath (e : EyeEmotion) (isLeft isBlinking : Bool) : List PathCmd :=
  let x : ℚ := if isLeft then -eyeOffsetX else eyeOffsetX
  let y : ℚ := eyeOffsetY
  let width : ℚ := (eyeDims e).1
  let height : ℚ := (eyeDims e).2
  if isBlinking then
    [ PathCmd.move (x - width / 2) y, PathCmd.hline (x + width / 2) ]
  else
    match e with
    | EyeEmotion.happy =>
        [ PathCmd.move (x - width / 2) y,
          PathCmd.quad (x - width * 0.2) (y - height * 0.6) x (y - height * 0.2),
          PathCmd.quad (x + width * 0.2) (y - height * 0.6) (x + width / 2) y,
          PathCmd.lineTo (x - width / 2) y,
          PathCmd.close ]
    | EyeEmotion.sad =>
        [ PathCmd.move (x - width / 2) y,
          PathCmd.quad x (y - height * 0.5) (x + width / 2) y,
          PathCmd.quad x (y + height * 0.6) (x - width / 2) y,
          PathCmd.close ]
    | EyeEmotion.angry =>
        [ PathCmd.move (x - width / 2) (y - height * 0.2),
          PathCmd.quad x (y - height * 0.8) (x + width / 2) (y - height * 0.2),
          PathCmd.quad x (y + height * 0.35) (x - width / 2) (y - height * 0.2),
          PathCmd.close ]
    | EyeEmotion.surprised =>
        let radius : ℚ := min width height / 2
        [ PathCmd.move x y,
          PathCmd.moveRel (-radius) 0,
          PathCmd.arcRel radius radius 0 true false (radius * 2) 0,
          PathCmd.arcRel radius radius 0 true false (-(radius * 2)) 0 ]
    | EyeEmotion.neutral =>
        [ PathCmd.move (x - width / 2) (y - height * 0.2),
          PathCmd.quad x (y - height * 0.8) (x + width / 2) (y - height * 0.2),
          PathCmd.quad x (y + height * 0.35) (x - width / 2) (y - height * 0.2),
          PathCmd.close ]

/-- The standard SVG idiom for a full circle of radius r centered at
(cx, cy): move to the center, shift left by r, draw two half-circle
arcs of radius r back to the start. -/
def circlePath (cx cy r : ℚ) : List PathCmd :=
  [ PathCmd.move cx cy,
    PathCmd.moveRel (-r) 0,
    PathCmd.arcRel r r 0 true false (r * 2) 0,
    PathCmd.arcRel r r 0 true false (-(r * 2)) 0 ]

/-- Rendering condition of the angry eyebrow paths, line 439. -/
def angryEyebrowShown (e : EyeEmotion) (isBlinking : Bool) : Bool :=
  (e == EyeEmotion.angry) && !isBlinking

/-- Rendering condition of the surprised eyebrow paths, line 459. -/
def surprisedEyebrowShown (e : EyeEmotion) (isBlinking : Bool) : Bool :=
  (e == EyeEmotion.surprised) && !isBlinking

/-- Whether any decorative eyebrow path is rendered. -/
def eyebrowRendered (e : EyeEmotion) (isBlinking : Bool) : Bool :=
  angryEyebrowShown e isBlinking || surprisedEyebrowShown e isBlinking

/-- The highlight position getEyeShinePosition of lines 334-355: base
offsets, the sad emotion moving the shine down, the surprised emotion
centering it horizontally. -/
def getEyeShinePosition (e : EyeEmotion) (isLeft : Bool) : ℚ × ℚ :=
  let baseX : ℚ := if isLeft then -eyeOffsetX else eyeOffsetX
  let offsetX : ℚ := if e = EyeEmotion.surprised then 0 else eyeWidth * 0.2
  let offsetY : ℚ := if e = EyeEmotion.sad then eyeHeight * 0.15 else -(eyeHeight * 0.2)
  (baseX + offsetX, eyeOffsetY + offsetY)

/-- C8: eye geometry is a deterministic function of the emotion: neutral
and surprised share the eye outline size class 1.25 times larger in both
width and height than the class shared by happy, sad and angry; with no
blink in progress a decorative eyebrow path is rendered exactly for the
angry and surprised emotions; the surprised eye outline is the circle of
radius 11.25 around the eye center; and sad places the eye-shine
highlight strictly lower (larger SVG y, a positive offset from the eye
center line) than every other emotion, for either eye. -/
theorem C8_eye_geometry :
    (eyeDims EyeEmotion.neutral = (eyeWidth * 1.25, eyeHeight * 1.25) ∧
     eyeDims EyeEmotion.surprised = (eyeWidth * 1.25, eyeHeight * 1.25) ∧
     eyeDims EyeEmotion.happy = (eyeWidth, eyeHeight) ∧
     eyeDims EyeEmotion.sad = (eyeWidth, eyeHeight) ∧
     eyeDims EyeEmotion.angry = (eyeWidth, eyeHeight)) ∧
    (∀ e : EyeEmotion,
      eyebrowRendered e false = (e == EyeEmotion.angry || e == EyeEmotion.surprised)) ∧
    (∀ isLeft : Bool,
      getEyePath EyeEmotion.surprised isLeft false
        = circlePath (if isLeft then -eyeOffsetX else eyeOffsetX) eyeOffsetY (45 / 4)) ∧
    (∀ isLeft : Bool,
      (getEyeShinePosition EyeEmotion.sad isLeft).2 - eyeOffsetY = eyeHeight * 0.15 ∧
      0 < eyeHeight * 0.15 ∧
      (getEyeShinePosition EyeEmotion.neutral isLeft).2
        < (getEyeShinePosition EyeEmotion.sad isLeft).2 ∧
      (getEyeShinePosition EyeEmotion.happy isLeft).2
        < (getEyeShinePosition EyeEmotion.sad isLeft).2 ∧
      (getEyeShinePosition EyeEmotion.angry isLeft).2
        < (getEyeShinePosition EyeEmotion.sad isLeft).2 ∧
      (getEyeShinePosition EyeEmotion.surprised isLeft).2
        < (getEyeShinePosition EyeEmotion.sad isLeft).2) := by
  refine ⟨⟨by simp [eyeDims], by simp [eyeDims], by simp [eyeDims],
           by simp [eyeDims], by simp [eyeDims]⟩, ?_, ?_, ?_⟩
  · intro e
    cases e <;> rfl
  · intro isLeft
    cases isLeft <;>
      norm_num [getEyePath, circlePath, eyeDims, eyeWidth, eyeHeight,
        eyeOffsetX, eyeOffsetY, min_def]
  · intro isLeft
    cases isLeft <;>
      norm_num [getEyeShinePosition, eyeWidth, eyeHeight, eyeOffsetX, eyeOffsetY]
    all_goals
      refine ⟨?_, ?_, ?_, ?_⟩ <;> rw [if_neg (fun h => EyeEmotion.noConfusion h)] <;> norm_num

/-!
Producer (App.tsx): streamNextToken, lines 49-88, with the 20-chunk
sliding window of lines 63-73, the typing-inactivity timeout of lines
101-107 and the explicit reset of lines 124-138.
-/

/-- The chunk cap maxChunks of line 65. -/
def maxChunks : Nat := 20

/-- The setTextChunks update of lines 63-73: append the new token, and
when the result exceeds maxChunks keep only its last maxChunks elements
(the slice with negative start index drops the oldest chunks). -/
def appendLimited (prev : List String) (tok : String) : List String :=
  let updatedChunks := prev ++ [tok]
  if updatedChunks.length > maxChunks then
    updatedChunks.drop (updatedChunks.length - maxChunks)
  else
    updatedChunks

/-- Producer state: the isSpeaking flag, the read position
currentTokenRef, the accumulated token stream tokensToStreamRef, and the
textChunks array handed to the avatar. -/
structure ProducerState where
  isSpeaking : Bool
  currentToken : Nat
  tokensToStream : List String
  textChunks : List String
deriving DecidableEq, Repr

/-- One invocation of streamNextToken, lines 49-88. The Bool records
whether a next invocation was scheduled. Not speaking: do nothing.
Unstreamed tokens left: push the next token into the chunk window,
advance, reschedule. All tokens streamed but the stream nonempty: just
reschedule and wait for more input. Empty stream: stop speaking. -/
def streamNextToken (s : ProducerState) : ProducerState × Bool :=
  if !s.isSpeaking then (s, false)
  else if h : s.currentToken < s.tokensToStream.length then
    ({ s with textChunks := appendLimited s.textChunks (s.tokensToStream.get ⟨s.currentToken, h⟩),
              currentToken := s.currentToken + 1 }, true)
  else if 0 < s.tokensToStream.length then (s, true)
  else ({ s with isSpeaking := false }, false)

/-- The typing-inactivity timeout callback of lines 101-107, fired 1500
ms after the last keystroke: stop speaking only when every token has been
streamed. -/
def typingTimeoutFire (s : ProducerState) : ProducerState :=
  if s.tokensToStream.length ≤ s.currentToken then { s with isSpeaking := false } else s

/-- The explicit reset handleReset of lines 124-138. -/
def handleReset (_ : ProducerState) : ProducerState :=
  { isSpeaking := false, currentToken := 0, tokensToStream := [], textChunks := [] }

/-- C9: every update streamNextToken performs on the textChunks array
keeps it at no more than maxChunks = 20 elements (assuming the previous
array respected the cap, as the initial empty array does and every
reachable array therefore does, witnessed by the fold clause); when the
plain append would exceed the cap the result is exactly the suffix of the
appended list with the oldest chunks dropped; and the result is always a
suffix of the plain append, so the buffer handed to the animator is not
unboundedly append-only. -/
theorem C9_chunk_window_bounded :
    (∀ (prev : List String) (tok : String),
      prev.length ≤ maxChunks → (appendLimited prev tok).length ≤ maxChunks) ∧
    (∀ (prev : List String) (tok : String),
      prev.length + 1 > maxChunks →
        appendLimited prev tok = (prev ++ [tok]).drop (prev.length + 1 - maxChunks)) ∧
    (∀ (prev : List String) (tok : String), appendLimited prev tok <:+ prev ++ [tok]) ∧
    (∀ toks : List String, (toks.foldl appendLimited []).length ≤ maxChunks) := by
  have hlen : ∀ (prev : List String) (tok : String),
      prev.length ≤ maxChunks → (appendLimited prev tok).length ≤ maxChunks := by
    intro prev tok hprev
    simp only [appendLimited]
    split
    · simp
      omega
    · simp at *
      omega
  refine ⟨hlen, ?_, ?_, ?_⟩
  · intro prev tok hgt
    simp only [appendLimited]
    rw [if_pos]
    · simp
    · simpa using hgt
  · intro prev tok
    simp only [appendLimited]
    split
    · exact List.drop_suffix _ _
    · exact List.suffix_refl _
  · intro toks
    induction toks using List.reverseRecOn with
    | nil => simp [maxChunks]
    | append_singleton ts t ih =>
        rw [List.foldl_append]
        exact hlen _ t ih

/-- Witness for C9 at a full window: appending to 20 chunks keeps the
length at 20 and drops the oldest chunk. -/
theorem C9_chunk_window_bounded_witness :
    (appendLimited (List.replicate 20 "a") "b").length ≤ maxChunks ∧
    appendLimited (List.replicate 20 "a") "b"
      = (List.replicate 20 "a" ++ ["b"]).drop ((List.replicate 20 "a").length + 1 - maxChunks) := by
  exact ⟨C9_chunk_window_bounded.1 (List.replicate 20 "a") "b" (by simp [maxChunks]),
         C9_chunk_window_bounded.2.1 (List.replicate 20 "a") "b" (by simp [maxChunks])⟩

/-- C10: once the token stream of the session is nonempty (at least one
token was appended; only the explicit reset empties it again),
streamNextToken never lowers the speaking flag itself: the flag after the
call equals the flag before it, and while the flag is up the call always
schedules a next invocation, also when every token has been consumed (it
waits instead of stopping). The flag is lowered elsewhere: by the
typing-inactivity timeout or by the explicit reset, both of which the
model states for contrast. -/
theorem C10_stream_keeps_speaking :
    (∀ s : ProducerState, s.tokensToStream ≠ [] →
      (streamNextToken s).1.isSpeaking = s.isSpeaking ∧
      (s.isSpeaking = true → (streamNextToken s).2 = true)) ∧
    (∀ s : ProducerState, s.tokensToStream.length ≤ s.currentToken →
      (typingTimeoutFire s).isSpeaking = false) ∧
    (∀ s : ProducerState, (handleReset s).isSpeaking = false) := by
  refine ⟨?_, ?_, ?_⟩
  · intro s hne
    have hpos : 0 < s.tokensToStream.length := List.length_pos.mpr hne
    by_cases hsp : s.isSpeaking = true
    · by_cases hlt : s.currentToken < s.tokensToStream.length
      · simp [streamNextToken, hsp, hlt]
      · simp [streamNextToken, hsp, hlt, hpos]
    · simp [streamNextToken, hsp]
  · intro s h
    unfold typingTimeoutFire
    rw [if_pos h]
  · intro s
    rfl

/-- Witness for C10: a speaking producer whose single token "h" has been
fully streamed keeps speaking and reschedules; the typing timeout on the
same state lowers the flag. -/
theorem C10_stream_keeps_speaking_witness :
    (streamNextToken
      { isSpeaking := true, currentToken := 1, tokensToStream := ["h"],
        textChunks := ["h"] }).1.isSpeaking = true ∧
    (streamNextToken
      { isSpeaking := true, currentToken := 1, tokensToStream := ["h"],
        textChunks := ["h"] }).2 = true ∧
    (typingTimeoutFire
      { isSpeaking := true, currentToken := 1, tokensToStream := ["h"],
        textChunks := ["h"] }).isSpeaking = false := by
  refine ⟨?_, ?_, ?_⟩
  · exact (C10_stream_keeps_speaking.1 _ (by decide)).1
  · exact (C10_stream_keeps_speaking.1
      { isSpeaking := true, currentToken := 1, tokensToStream := ["h"],
        textChunks := ["h"] } (by decide)).2 rfl
  · exact C10_stream_keeps_speaking.2.1
      { isSpeaking := true, currentToken := 1, tokensToStream := ["h"],
        textChunks := ["h"] } (by decide)
